/-
Verification of the ATLAS evaluation scoring core
(src/evaluation/scripts/atlas_data_analysis.py).

The numeric model uses exact rationals (ℚ) for Python float arithmetic.
Values that can be the float NaN (np.mean of an empty list, pandas .std of
fewer than two values) are modelled by explicit NaN-carrying types; every
comparison against NaN is false, as in IEEE floats.  A Python function that
can raise (ZeroDivisionError) is modelled as returning Option, with none for
the raised exception.
-/
import Mathlib

set_option maxHeartbeats 1000000

/-- A Python float reaching a comparison or a score field: either an exact
rational value or NaN (produced by np.mean of an empty list). -/
inductive PFloat where
  | num (q : ℚ)
  | nan
deriving DecidableEq, Repr

/-- The Python comparison x <= y; false whenever either side is NaN. -/
def PFloat.ble : PFloat → PFloat → Bool
  | .num a, .num b => decide (a ≤ b)
  | _, _ => false

/-- The Python comparison x >= y; false whenever either side is NaN. -/
def PFloat.bge : PFloat → PFloat → Bool
  | .num a, .num b => decide (b ≤ a)
  | _, _ => false

/-- np.mean of a list of numbers: NaN on the empty list, otherwise the
exact arithmetic mean. -/
def npMean (l : List ℚ) : PFloat :=
  if l.isEmpty then .nan else .num (l.sum / (l.length : ℚ))

/- ===========================================================================
   1. ATLASPerformanceAnalyzer (atlas_data_analysis.py lines 53-92)
   =========================================================================== -/

/-- The fixed target table of analyze_performance_metrics, in source order. -/
def performance_targets : List (String × ℚ) :=
  [("pwa_score", 90), ("performance_score", 80), ("first_contentful_paint", 2),
   ("time_to_interactive", 3), ("offline_success_rate", 95)]

/-- The metrics compared with actual >= target; all others use actual <= target. -/
def higher_is_better_metrics : List String :=
  ["pwa_score", "performance_score", "offline_success_rate"]

/-- One entry of the results dict built by analyze_performance_metrics. -/
structure MetricResult where
  actual : ℚ
  target : ℚ
  meets_target : Bool
  variance_percent : ℚ
deriving DecidableEq, Repr

/-- The loop body of analyze_performance_metrics for one metric present in the
input (lines 66-73).  none models the ZeroDivisionError that
((actual - target) / target) * 100 raises when target == 0. -/
def analyze_metric (metric : String) (actual target : ℚ) : Option MetricResult :=
  if target = 0 then none
  else some { actual := actual, target := target,
              meets_target := if metric ∈ higher_is_better_metrics
                then decide (target ≤ actual) else decide (actual ≤ target),
              variance_percent := (actual - target) / target * 100 }

/-- analyze_performance_metrics: iterate the fixed target table in order,
keep the metrics present in the input, and score each against its target. -/
def analyze_performance_metrics (metrics_data : List (String × ℚ)) :
    Option (List (String × MetricResult)) :=
  (performance_targets.filterMap
      (fun p => (metrics_data.lookup p.1).map (fun a => (p.1, a, p.2)))).mapM
    (fun t => (analyze_metric t.1 t.2.1 t.2.2).map (fun r => (t.1, r)))

/-- The summary block of generate_performance_report. -/
structure PerformanceSummary where
  total_metrics : ℕ
  targets_met : ℕ
  overall_score : ℚ
deriving DecidableEq, Repr

/-- The report of generate_performance_report; the timestamp and app_url
metadata fields are external I/O and are omitted. -/
structure PerformanceReport where
  metrics_analysis : List (String × MetricResult)
  summary : PerformanceSummary
deriving DecidableEq, Repr

/-- generate_performance_report (lines 77-92).  none models the
ZeroDivisionError of targets_met / len(analysis) when no metric of the
target table is present in the input. -/
def generate_performance_report (metrics_data : List (String × ℚ)) :
    Option PerformanceReport :=
  (analyze_performance_metrics metrics_data).bind (fun analysis =>
    if analysis.length = 0 then none
    else some { metrics_analysis := analysis,
                summary := {
                  total_metrics := analysis.length,
                  targets_met := analysis.countP (fun m => m.2.meets_target),
                  overall_score :=
                    ((analysis.countP (fun m => m.2.meets_target) : ℚ) /
                      (analysis.length : ℚ)) * 100 } })

/- ===========================================================================
   2. ClinicalScenarioAnalyzer.calculate_clinical_metrics (lines 168-184)
   =========================================================================== -/

/-- The metrics dict of calculate_clinical_metrics. -/
structure ClinicalMetrics where
  accuracy : ℚ
  precision : ℚ
  «recall» : ℚ
  specificity : ℚ
  f1_score : ℚ
deriving DecidableEq, Repr

/-- A row of the results frame restricted to the two boolean columns read by
calculate_clinical_metrics: (who_aligned, expected_alignment). -/
abbrev ClinicalRow := Bool × Bool

/-- True positives: who_aligned and expected_alignment both true. -/
def tpOf (rows : List ClinicalRow) : ℕ := rows.countP (fun r => r.1 && r.2)

/-- False positives: who_aligned true, expected_alignment false. -/
def fpOf (rows : List ClinicalRow) : ℕ := rows.countP (fun r => r.1 && !r.2)

/-- True negatives: who_aligned false, expected_alignment false. -/
def tnOf (rows : List ClinicalRow) : ℕ := rows.countP (fun r => !r.1 && !r.2)

/-- False negatives: who_aligned false, expected_alignment true. -/
def fnOf (rows : List ClinicalRow) : ℕ := rows.countP (fun r => !r.1 && r.2)

/-- calculate_clinical_metrics.  none models the ZeroDivisionError raised by
the unguarded accuracy division when tp + fp + tn + fn == 0 (the dict literal
evaluates accuracy first, so nothing is returned).  precision, recall and
specificity carry the source's explicit denominator guards, and f1_score the
source's tp > 0 guard; inside the tp > 0 branch every denominator is
positive, so exact rational division matches the Python float division. -/
def calculate_clinical_metrics (rows : List ClinicalRow) : Option ClinicalMetrics :=
  let tp : ℚ := (tpOf rows : ℚ)
  let fp : ℚ := (fpOf rows : ℚ)
  let tn : ℚ := (tnOf rows : ℚ)
  let fn : ℚ := (fnOf rows : ℚ)
  if tp + fp + tn + fn = 0 then none
  else some {
    accuracy := (tp + tn) / (tp + fp + tn + fn),
    precision := if 0 < tp + fp then tp / (tp + fp) else 0,
    «recall» := if 0 < tp + fn then tp / (tp + fn) else 0,
    specificity := if 0 < tn + fp then tn / (tn + fp) else 0,
    f1_score := if 0 < tp then
        2 * ((tp / (tp + fp)) * (tp / (tp + fn))) /
          ((tp / (tp + fp)) + (tp / (tp + fn)))
      else 0 }

/- ===========================================================================
   3. ExpertEvaluationAnalyzer (lines 242-331)
   =========================================================================== -/

/-- One expert survey row, restricted to the columns read by
analyze_expert_responses. -/
structure ExpertResponse where
  expert_type : String
  years_experience : ℚ
  resource_limited_experience : Bool
deriving DecidableEq, Repr

/-- A pandas-style standard deviation value: an exact rational (the literal 0
of the placeholder branch), the square root of a sample variance, or NaN
(fewer than two values, pandas ddof=1). -/
inductive StdFloat where
  | num (q : ℚ)
  | sqrtVal (v : ℚ)
  | nan
deriving DecidableEq, Repr

/-- Sample variance (pandas default ddof=1) of a list of scores. -/
def sampleVariance (l : List ℚ) : ℚ :=
  let m := l.sum / (l.length : ℚ)
  (l.map (fun x => (x - m) ^ 2)).sum / ((l.length : ℚ) - 1)

/-- pandas Series.std: NaN for fewer than two values, otherwise the square
root of the sample variance (kept symbolically, since it is irrational in
general). -/
def pdStd (l : List ℚ) : StdFloat :=
  if l.length ≤ 1 then .nan else .sqrtVal (sampleVariance l)

/-- pandas value_counts().to_dict(): a frequency table of the distinct values.
Modelled in first-occurrence order (the claims only inspect the empty case,
where the table is empty). -/
def valueCounts (l : List String) : List (String × ℕ) :=
  (l.foldl (fun acc s => if acc.contains s then acc else acc ++ [s]) []).map
    (fun s => (s, l.count s))

/-- calculate_sus_grade (lines 294-300); every comparison against NaN is
false, so a NaN mean falls through to "F", as in Python. -/
def calculate_sus_grade (sus_score : PFloat) : String :=
  if sus_score.bge (.num 85) then "A"
  else if sus_score.bge (.num 80) then "B"
  else if sus_score.bge (.num 70) then "C"
  else if sus_score.bge (.num 50) then "D"
  else "F"

/-- The response_summary block of analyze_expert_responses; note is the
optional placeholder message key. -/
structure ResponseSummary where
  total_experts : ℕ
  expert_types : List (String × ℕ)
  avg_years_experience : PFloat
  resource_limited_experience_pct : ℚ
  note : Option String
deriving DecidableEq, Repr

/-- The sus_analysis block of analyze_expert_responses. -/
structure SusAnalysis where
  mean_sus : PFloat
  std_sus : StdFloat
  sus_grade : String
  above_average : ℚ
  note : Option String
deriving DecidableEq, Repr

/-- The full analysis dict of analyze_expert_responses. -/
structure ExpertAnalysis where
  response_summary : ResponseSummary
  sus_analysis : SusAnalysis
deriving DecidableEq, Repr

/-- analyze_expert_responses (lines 242-292).  rows models the DataFrame
rows; sus_col models the optional overall_assessment_system_usability_scale
column (present iff the column exists).  An empty DataFrame (df.empty) takes
the placeholder branch and never fails. -/
def analyze_expert_responses (rows : List ExpertResponse)
    (sus_col : Option (List ℚ)) : ExpertAnalysis :=
  if rows.isEmpty then
    { response_summary := {
        total_experts := 0,
        expert_types := [],
        avg_years_experience := .num 0,
        resource_limited_experience_pct := 0,
        note := some ("No expert evaluation data collected yet") },
      sus_analysis := {
        mean_sus := .num 0,
        std_sus := .num 0,
        sus_grade := "N/A",
        above_average := 0,
        note := some ("Expert evaluation pending") } }
  else
    { response_summary := {
        total_experts := rows.length,
        expert_types := valueCounts (rows.map ExpertResponse.expert_type),
        avg_years_experience := npMean (rows.map ExpertResponse.years_experience),
        resource_limited_experience_pct :=
          ((rows.countP ExpertResponse.resource_limited_experience : ℚ) /
            (rows.length : ℚ)) * 100,
        note := none },
      sus_analysis :=
        match sus_col with
        | some sus =>
          { mean_sus := npMean sus,
            std_sus := pdStd sus,
            sus_grade := calculate_sus_grade (npMean sus),
            above_average :=
              ((sus.countP (fun s => decide (70 < s)) : ℚ) / (sus.length : ℚ)) * 100,
            note := none }
        | none =>
          { mean_sus := .num 0,
            std_sus := .num 0,
            sus_grade := "N/A",
            above_average := 0,
            note := some ("SUS data not available") } }

/-- The fixed theme taxonomy of perform_thematic_analysis (lines 305-312). -/
def atlas_themes : List (String × List String) :=
  [("usability", ["easy", "intuitive", "user-friendly", "simple", "complex", "difficult"]),
   ("clinical_safety", ["safe", "dangerous", "risk", "accurate", "error", "mistake"]),
   ("technical_issues", ["bug", "crash", "slow", "fast", "reliable", "unstable"]),
   ("deployment_concerns", ["training", "cost", "infrastructure", "support", "maintenance"]),
   ("positive_feedback", ["excellent", "good", "helpful", "useful", "valuable"]),
   ("negative_feedback", ["poor", "bad", "problematic", "concerning", "inadequate"])]

/-- needle occurs as a contiguous sublist of hay (Python substring test). -/
def containsSub (needle : List Char) : List Char → Bool
  | [] => needle.isEmpty
  | c :: rest => needle.isPrefixOf (c :: rest) || containsSub needle rest

/-- comment.lower(), as a character list. -/
def lowerChars (s : String) : List Char := s.data.map Char.toLower

/-- The inner keyword loop with break: the first keyword of the theme that
occurs in the lowercased comment, if any. -/
def firstKeywordHit (keywords : List String) (s : String) : Option String :=
  keywords.find? (fun k => containsSub k.data (lowerChars s))

/-- comment[:100] + "...". -/
def truncateExample (s : String) : String := String.mk (s.data.take 100) ++ "..."

/-- One theme's entry of the thematic_results dict. -/
structure ThemeResult where
  mentions : ℕ
  examples : List String
deriving DecidableEq, Repr

/-- The per-comment step of the comment loop for one theme (lines 321-329):
skip absent (None) and falsy (empty-string) comments; on the first matching
keyword, add one mention and at most a third example, then break. -/
def themeStep (keywords : List String) (st : ℕ × List String) (c : Option String) :
    ℕ × List String :=
  match c with
  | none => st
  | some s =>
    if s = "" then st
    else
      match firstKeywordHit keywords s with
      | none => st
      | some _ =>
        (st.1 + 1, if st.2.length < 3 then st.2 ++ [truncateExample s] else st.2)

/-- The comment loop for one theme, from the zero initial state. -/
def analyzeTheme (keywords : List String) (comments_data : List (Option String)) :
    ThemeResult :=
  let st := comments_data.foldl (themeStep keywords) (0, [])
  { mentions := st.1, examples := st.2 }

/-- perform_thematic_analysis (lines 302-331): one ThemeResult per theme of
the fixed taxonomy, in taxonomy order. -/
def perform_thematic_analysis (comments_data : List (Option String)) :
    List (String × ThemeResult) :=
  atlas_themes.map (fun t => (t.1, analyzeTheme t.2 comments_data))

/- ===========================================================================
   4. FrameworkAssessmentAnalyzer (lines 337-446)
   =========================================================================== -/

/-- The seven NASSS complexity domains, in source order. -/
def nasss_domains : List String :=
  ["technology", "value_proposition", "adopters", "organization",
   "wider_system", "embedding", "adaptation"]

/-- The five RE-AIM readiness dimensions, in source order. -/
def reaim_dimensions : List String :=
  ["reach", "effectiveness", "adoption", "implementation", "maintenance"]

/-- get_nasss_complexity_level (lines 368-373); NaN fails every comparison
and falls through to Chaotic. -/
def get_nasss_complexity_level (score : PFloat) : String :=
  if score.ble (.num 2) then "Simple"
  else if score.ble (.num 3) then "Complicated"
  else if score.ble (.num 4) then "Complex"
  else "Chaotic"

/-- get_reaim_readiness_level (lines 396-401); NaN fails every comparison
and falls through to Not Ready. -/
def get_reaim_readiness_level (score : PFloat) : String :=
  if score.bge (.num 8) then "High Readiness"
  else if score.bge (.num 6) then "Moderate Readiness"
  else if score.bge (.num 4) then "Low Readiness"
  else "Not Ready"

/-- One entry of a framework-scores dict: the stored score and its level. -/
structure FrameworkEntry where
  score : PFloat
  level : String
deriving DecidableEq, Repr

/-- The vocabulary entries present in the assessment dict, with their raw
scores, in vocabulary order (the membership loop of the scorers). -/
def presentOf (vocab : List String) (a : List (String × ℚ)) : List (String × ℚ) :=
  vocab.filterMap (fun d => (a.lookup d).map (fun s => (d, s)))

/-- Common shape of calculate_nasss_scores and calculate_reaim_scores:
per-entry score and level for every present vocabulary entry, then an
"overall" entry whose score is np.mean of the present scores (NaN when no
vocabulary entry is present; np.mean of an empty list warns and returns NaN,
and warnings are filtered in this script). -/
def frameworkScores (vocab : List String) (lvl : PFloat → String)
    (a : List (String × ℚ)) : List (String × FrameworkEntry) :=
  let present := presentOf vocab a
  let avg := npMean (present.map Prod.snd)
  present.map (fun p => (p.1, { score := .num p.2, level := lvl (.num p.2) })) ++
    [("overall", { score := avg, level := lvl avg })]

/-- calculate_nasss_scores (lines 347-366). -/
def calculate_nasss_scores (a : List (String × ℚ)) : List (String × FrameworkEntry) :=
  frameworkScores nasss_domains get_nasss_complexity_level a

/-- calculate_reaim_scores (lines 375-394). -/
def calculate_reaim_scores (a : List (String × ℚ)) : List (String × FrameworkEntry) :=
  frameworkScores reaim_dimensions get_reaim_readiness_level a

/-- make_readiness_decision (lines 436-446), as a function of the two
'overall' scores it reads from the analyses. -/
def make_readiness_decision (nasss_score reaim_score : PFloat) : String :=
  if nasss_score.ble (.num 3) && reaim_score.bge (.num 6) then
    "Ready for pilot implementation"
  else if nasss_score.ble (.num 4) && reaim_score.bge (.num 4) then
    "Ready with modifications"
  else
    "Requires significant development before implementation"

/-- Spec-side definition for the overall-score claim: the unweighted
arithmetic mean of the raw scores of exactly the vocabulary entries present
in the assessment. -/
def presentMean (vocab : List String) (a : List (String × ℚ)) : ℚ :=
  ((presentOf vocab a).map Prod.snd).sum /
    (((presentOf vocab a).map Prod.snd).length : ℚ)

/- ===========================================================================
   Helper lemmas
   =========================================================================== -/

section LookupLemmas

variable {β : Type}

theorem lookup_cons_self (k : String) (v : β) (l : List (String × β)) :
    List.lookup k ((k, v) :: l) = some v := by
  simp [List.lookup]

theorem lookup_cons_ne (k a : String) (v : β) (l : List (String × β)) (h : k ≠ a) :
    List.lookup k ((a, v) :: l) = List.lookup k l := by
  have hb : (k == a) = false := beq_eq_false_iff_ne.mpr h
  simp [List.lookup, hb]

theorem lookup_append (k : String) (l l2 : List (String × β)) :
    List.lookup k (l ++ l2) = (List.lookup k l).or (List.lookup k l2) := by
  induction l with
  | nil => simp [List.lookup]
  | cons p t ih =>
    obtain ⟨a, b⟩ := p
    by_cases h : k = a
    · subst h
      simp [List.lookup]
    · have hb : (k == a) = false := beq_eq_false_iff_ne.mpr h
      simp [List.lookup, hb, ih]

end LookupLemmas

theorem lookup_map_entry (lvl : PFloat → String) (l : List (String × ℚ)) (k : String) :
    List.lookup k (l.map (fun p =>
        (p.1, ({ score := .num p.2, level := lvl (.num p.2) } : FrameworkEntry)))) =
      (List.lookup k l).map
        (fun v => ({ score := .num v, level := lvl (.num v) } : FrameworkEntry)) := by
  induction l with
  | nil => simp [List.lookup]
  | cons p t ih =>
    obtain ⟨a, b⟩ := p
    by_cases h : k = a
    · subst h
      simp [List.lookup]
    · have hb : (k == a) = false := beq_eq_false_iff_ne.mpr h
      simp [List.lookup, hb, ih]

theorem lookup_presentOf_not_mem (vocab : List String) (a : List (String × ℚ))
    (k : String) (hk : k ∉ vocab) :
    List.lookup k (presentOf vocab a) = none := by
  induction vocab with
  | nil => simp [presentOf, List.lookup]
  | cons d rest ih =>
    have hkd : k ≠ d := fun h => hk (h ▸ List.mem_cons_self d rest)
    have hkr : k ∉ rest := fun h => hk (List.mem_cons_of_mem d h)
    simp only [presentOf, List.filterMap_cons]
    cases h : List.lookup d a with
    | none => exact ih hkr
    | some s =>
      simp only [Option.map]
      rw [lookup_cons_ne k d s _ hkd]
      exact ih hkr

theorem lookup_presentOf (vocab : List String) (a : List (String × ℚ))
    (k : String) (hnd : vocab.Nodup) (hk : k ∈ vocab) :
    List.lookup k (presentOf vocab a) = List.lookup k a := by
  induction vocab with
  | nil => cases hk
  | cons d rest ih =>
    simp only [presentOf, List.filterMap_cons]
    rcases List.mem_cons.mp hk with h | h
    · subst h
      have hkr : k ∉ rest := (List.nodup_cons.mp hnd).1
      cases hl : List.lookup k a with
      | none => exact lookup_presentOf_not_mem rest a k hkr
      | some s =>
        simp only [Option.map]
        rw [lookup_cons_self]
    · have hnd2 : rest.Nodup := (List.nodup_cons.mp hnd).2
      have hkd : k ≠ d := fun hh => (List.nodup_cons.mp hnd).1 (hh ▸ h)
      cases hl : List.lookup d a with
      | none => exact ih hnd2 h
      | some s =>
        simp only [Option.map]
        rw [lookup_cons_ne k d s _ hkd]
        exact ih hnd2 h

theorem lookup_frameworkScores_overall (vocab : List String) (lvl : PFloat → String)
    (a : List (String × ℚ)) (hov : ("overall" : String) ∉ vocab) :
    List.lookup ("overall") (frameworkScores vocab lvl a) =
      some { score := npMean ((presentOf vocab a).map Prod.snd),
             level := lvl (npMean ((presentOf vocab a).map Prod.snd)) } := by
  unfold frameworkScores
  rw [lookup_append, lookup_map_entry, lookup_presentOf_not_mem vocab a _ hov]
  simp [List.lookup]

theorem lookup_frameworkScores_domain (vocab : List String) (lvl : PFloat → String)
    (a : List (String × ℚ)) (k : String) (hnd : vocab.Nodup) (hk : k ∈ vocab)
    (hko : k ≠ "overall") :
    List.lookup k (frameworkScores vocab lvl a) =
      (List.lookup k a).map
        (fun v => ({ score := .num v, level := lvl (.num v) } : FrameworkEntry)) := by
  unfold frameworkScores
  rw [lookup_append, lookup_map_entry, lookup_presentOf vocab a k hnd hk]
  cases hl : List.lookup k a with
  | none =>
    have hb : (k == "overall") = false := beq_eq_false_iff_ne.mpr hko
    simp [List.lookup, hb]
  | some v => simp

theorem calculate_clinical_metrics_none (rows : List ClinicalRow)
    (h0 : (tpOf rows : ℚ) + (fpOf rows : ℚ) + (tnOf rows : ℚ) + (fnOf rows : ℚ) = 0) :
    calculate_clinical_metrics rows = none := by
  simp [calculate_clinical_metrics, h0]

theorem calculate_clinical_metrics_some (rows : List ClinicalRow)
    (h0 : (tpOf rows : ℚ) + (fpOf rows : ℚ) + (tnOf rows : ℚ) + (fnOf rows : ℚ) ≠ 0) :
    calculate_clinical_metrics rows = some {
      accuracy := ((tpOf rows : ℚ) + (tnOf rows : ℚ)) /
        ((tpOf rows : ℚ) + (fpOf rows : ℚ) + (tnOf rows : ℚ) + (fnOf rows : ℚ)),
      precision := if 0 < (tpOf rows : ℚ) + (fpOf rows : ℚ) then
          (tpOf rows : ℚ) / ((tpOf rows : ℚ) + (fpOf rows : ℚ)) else 0,
      «recall» := if 0 < (tpOf rows : ℚ) + (fnOf rows : ℚ) then
          (tpOf rows : ℚ) / ((tpOf rows : ℚ) + (fnOf rows : ℚ)) else 0,
      specificity := if 0 < (tnOf rows : ℚ) + (fpOf rows : ℚ) then
          (tnOf rows : ℚ) / ((tnOf rows : ℚ) + (fpOf rows : ℚ)) else 0,
      f1_score := if 0 < (tpOf rows : ℚ) then
          2 * (((tpOf rows : ℚ) / ((tpOf rows : ℚ) + (fpOf rows : ℚ))) *
               ((tpOf rows : ℚ) / ((tpOf rows : ℚ) + (fnOf rows : ℚ)))) /
            (((tpOf rows : ℚ) / ((tpOf rows : ℚ) + (fpOf rows : ℚ))) +
             ((tpOf rows : ℚ) / ((tpOf rows : ℚ) + (fnOf rows : ℚ))))
        else 0 } := by
  simp [calculate_clinical_metrics, h0]

/-- C1: whenever calculate_clinical_metrics returns a metrics dict, the
f1_score is 0 if TP = 0 (regardless of FP, TN, FN), and for TP > 0 it is
2 * precision * recall / (precision + recall) with precision = TP/(TP+FP)
and recall = TP/(TP+FN), which also equal the returned precision and recall
fields. -/
theorem f1_spec (rows : List ClinicalRow) (r : ClinicalMetrics)
    (h : calculate_clinical_metrics rows = some r) :
    (tpOf rows = 0 → r.f1_score = 0) ∧
    (0 < tpOf rows →
      r.f1_score =
        2 * (((tpOf rows : ℚ) / ((tpOf rows : ℚ) + (fpOf rows : ℚ))) *
             ((tpOf rows : ℚ) / ((tpOf rows : ℚ) + (fnOf rows : ℚ)))) /
          (((tpOf rows : ℚ) / ((tpOf rows : ℚ) + (fpOf rows : ℚ))) +
           ((tpOf rows : ℚ) / ((tpOf rows : ℚ) + (fnOf rows : ℚ)))) ∧
      r.f1_score = 2 * (r.precision * r.«recall») / (r.precision + r.«recall»)) := by
  by_cases h0 : (tpOf rows : ℚ) + (fpOf rows : ℚ) + (tnOf rows : ℚ) + (fnOf rows : ℚ) = 0
  · rw [calculate_clinical_metrics_none rows h0] at h
    cases h
  · rw [calculate_clinical_metrics_some rows h0] at h
    have hr := (Option.some.injEq _ _).mp h
    subst hr
    constructor
    · intro htp
      have : ¬(0 < (tpOf rows : ℚ)) := by
        rw [htp]
        norm_num
      simp [this]
    · intro htp
      have htpq : 0 < (tpOf rows : ℚ) := by exact_mod_cast htp
      have hpf : 0 < (tpOf rows : ℚ) + (fpOf rows : ℚ) := by positivity
      have hfn : 0 < (tpOf rows : ℚ) + (fnOf rows : ℚ) := by positivity
      refine ⟨by simp [htpq], ?_⟩
      simp [htpq, hpf, hfn]

/-- C1 witness: concrete applications at a TP = 0 input and a TP > 0 input. -/
theorem f1_spec_witness :
    calculate_clinical_metrics [(false, true)] =
        some { accuracy := 0, precision := 0, «recall» := 0, specificity := 0,
               f1_score := 0 } ∧
    tpOf [(false, true)] = 0 ∧
    ({ accuracy := 0, precision := 0, «recall» := 0, specificity := 0,
       f1_score := 0 } : ClinicalMetrics).f1_score = 0 ∧
    calculate_clinical_metrics [(true, true)] =
        some { accuracy := 1, precision := 1, «recall» := 1, specificity := 0,
               f1_score := 1 } ∧
    ({ accuracy := 1, precision := 1, «recall» := 1, specificity := 0,
       f1_score := 1 } : ClinicalMetrics).f1_score =
      2 * (1 * 1) / (1 + 1) := by
  have e1 : calculate_clinical_metrics [(false, true)] =
      some { accuracy := 0, precision := 0, «recall» := 0, specificity := 0,
             f1_score := 0 } := by
    norm_num [calculate_clinical_metrics, tpOf, fpOf, tnOf, fnOf]
  have e2 : calculate_clinical_metrics [(true, true)] =
      some { accuracy := 1, precision := 1, «recall» := 1, specificity := 0,
             f1_score := 1 } := by
    norm_num [calculate_clinical_metrics, tpOf, fpOf, tnOf, fnOf]
  refine ⟨e1, by decide, (f1_spec [(false, true)] _ e1).1 (by decide), e2, ?_⟩
  have h2 := ((f1_spec [(true, true)] _ e2).2 (by decide)).2
  simpa using h2

/-- C2: calculate_clinical_metrics fails (UndefinedMetric / ZeroDivisionError)
when TP + FP + TN + FN = 0; on every successful input, accuracy is
(TP + TN) / total and precision, recall, specificity substitute 0 when their
respective denominators TP+FP, TP+FN, TN+FP are 0. -/
theorem clinical_metrics_guards_spec :
    (∀ rows : List ClinicalRow,
      tpOf rows + fpOf rows + tnOf rows + fnOf rows = 0 →
        calculate_clinical_metrics rows = none) ∧
    (∀ (rows : List ClinicalRow) (r : ClinicalMetrics),
      calculate_clinical_metrics rows = some r →
      r.accuracy = ((tpOf rows : ℚ) + (tnOf rows : ℚ)) /
        ((tpOf rows : ℚ) + (fpOf rows : ℚ) + (tnOf rows : ℚ) + (fnOf rows : ℚ)) ∧
      (tpOf rows + fpOf rows = 0 → r.precision = 0) ∧
      (tpOf rows + fnOf rows = 0 → r.«recall» = 0) ∧
      (tnOf rows + fpOf rows = 0 → r.specificity = 0)) := by
  constructor
  · intro rows h
    apply calculate_clinical_metrics_none
    exact_mod_cast congrArg (Nat.cast : ℕ → ℚ) h
  · intro rows r h
    by_cases h0 : (tpOf rows : ℚ) + (fpOf rows : ℚ) + (tnOf rows : ℚ) + (fnOf rows : ℚ) = 0
    · rw [calculate_clinical_metrics_none rows h0] at h
      cases h
    · rw [calculate_clinical_metrics_some rows h0] at h
      have hr := (Option.some.injEq _ _).mp h
      subst hr
      refine ⟨rfl, ?_, ?_, ?_⟩
      · intro hz
        have : ¬(0 < (tpOf rows : ℚ) + (fpOf rows : ℚ)) := by
          have : (tpOf rows : ℚ) + (fpOf rows : ℚ) = 0 := by exact_mod_cast hz
          rw [this]
          norm_num
        simp [this]
      · intro hz
        have : ¬(0 < (tpOf rows : ℚ) + (fnOf rows : ℚ)) := by
          have : (tpOf rows : ℚ) + (fnOf rows : ℚ) = 0 := by exact_mod_cast hz
          rw [this]
          norm_num
        simp [this]
      · intro hz
        have : ¬(0 < (tnOf rows : ℚ) + (fpOf rows : ℚ)) := by
          have : (tnOf rows : ℚ) + (fpOf rows : ℚ) = 0 := by exact_mod_cast hz
          rw [this]
          norm_num
        simp [this]

/-- C2 witness: the all-zero matrix fails; an FN-only input exercises the
zero-denominator substitutions. -/
theorem clinical_metrics_guards_spec_witness :
    tpOf ([] : List ClinicalRow) + fpOf [] + tnOf [] + fnOf [] = 0 ∧
    calculate_clinical_metrics ([] : List ClinicalRow) = none ∧
    calculate_clinical_metrics [(false, true)] =
        some { accuracy := 0, precision := 0, «recall» := 0, specificity := 0,
               f1_score := 0 } ∧
    ({ accuracy := 0, precision := 0, «recall» := 0, specificity := 0,
       f1_score := 0 } : ClinicalMetrics).precision = 0 := by
  have e1 : calculate_clinical_metrics [(false, true)] =
      some { accuracy := 0, precision := 0, «recall» := 0, specificity := 0,
             f1_score := 0 } := by
    norm_num [calculate_clinical_metrics, tpOf, fpOf, tnOf, fnOf]
  refine ⟨by decide, ?_, e1, ?_⟩
  · exact clinical_metrics_guards_spec.1 [] (by decide)
  · exact ((clinical_metrics_guards_spec.2 [(false, true)] _ e1).2.1) (by decide)

/-- C3: the readiness decision is Ready for pilot exactly when complexity <= 3
and readiness >= 6; otherwise Ready with modifications exactly when
complexity <= 4 and readiness >= 4; otherwise Requires significant
development.  Includes the three boundary examples of the spec. -/
theorem make_readiness_decision_spec :
    (∀ c r : ℚ,
      (make_readiness_decision (.num c) (.num r) = "Ready for pilot implementation" ↔
        c ≤ 3 ∧ 6 ≤ r) ∧
      (make_readiness_decision (.num c) (.num r) = "Ready with modifications" ↔
        ¬(c ≤ 3 ∧ 6 ≤ r) ∧ (c ≤ 4 ∧ 4 ≤ r)) ∧
      (make_readiness_decision (.num c) (.num r) =
          "Requires significant development before implementation" ↔
        ¬(c ≤ 3 ∧ 6 ≤ r) ∧ ¬(c ≤ 4 ∧ 4 ≤ r))) ∧
    make_readiness_decision (.num 3) (.num 6) = "Ready for pilot implementation" ∧
    make_readiness_decision (.num (7/2)) (.num 5) = "Ready with modifications" ∧
    make_readiness_decision (.num (9/2)) (.num 3) =
      "Requires significant development before implementation" := by
  refine ⟨?_, ?_, ?_, ?_⟩
  · intro c r
    have s12 : ("Ready for pilot implementation" : String) ≠
        "Ready with modifications" := by decide
    have s13 : ("Ready for pilot implementation" : String) ≠
        "Requires significant development before implementation" := by decide
    have s23 : ("Ready with modifications" : String) ≠
        "Requires significant development before implementation" := by decide
    unfold make_readiness_decision
    simp only [PFloat.ble, PFloat.bge, Bool.and_eq_true, decide_eq_true_eq]
    split_ifs with h1 h2
    · simp [h1, s12, s13]
    · simp [h1, h2, Ne.symm s12, s23]
    · simp [h1, h2, Ne.symm s13, Ne.symm s23]
  · norm_num [make_readiness_decision, PFloat.ble, PFloat.bge]
  · norm_num [make_readiness_decision, PFloat.ble, PFloat.bge]
  · norm_num [make_readiness_decision, PFloat.ble, PFloat.bge]

/-- C3 witness: applying the characterization at concrete scores. -/
theorem make_readiness_decision_spec_witness :
    make_readiness_decision (.num 2) (.num 7) = "Ready for pilot implementation" :=
  ((make_readiness_decision_spec.1 2 7).1).mpr (by norm_num)

theorem nasss_level_iff (s : ℚ) :
    (get_nasss_complexity_level (.num s) = "Simple" ↔ s ≤ 2) ∧
    (get_nasss_complexity_level (.num s) = "Complicated" ↔ 2 < s ∧ s ≤ 3) ∧
    (get_nasss_complexity_level (.num s) = "Complex" ↔ 3 < s ∧ s ≤ 4) ∧
    (get_nasss_complexity_level (.num s) = "Chaotic" ↔ 4 < s) := by
  have d12 : ("Simple" : String) ≠ "Complicated" := by decide
  have d13 : ("Simple" : String) ≠ "Complex" := by decide
  have d14 : ("Simple" : String) ≠ "Chaotic" := by decide
  have d23 : ("Complicated" : String) ≠ "Complex" := by decide
  have d24 : ("Complicated" : String) ≠ "Chaotic" := by decide
  have d34 : ("Complex" : String) ≠ "Chaotic" := by decide
  unfold get_nasss_complexity_level
  simp only [PFloat.ble, decide_eq_true_eq]
  split_ifs with h1 h2 h3
  · exact ⟨⟨fun _ => h1, fun _ => rfl⟩,
      ⟨fun hq => absurd hq d12, fun hc => absurd h1 (not_le.mpr hc.1)⟩,
      ⟨fun hq => absurd hq d13, fun hc => by linarith [hc.1]⟩,
      ⟨fun hq => absurd hq d14, fun hc => by linarith⟩⟩
  · exact ⟨⟨fun hq => absurd hq (Ne.symm d12), fun hc => absurd hc h1⟩,
      ⟨fun _ => ⟨not_le.mp h1, h2⟩, fun _ => rfl⟩,
      ⟨fun hq => absurd hq d23, fun hc => absurd h2 (not_le.mpr hc.1)⟩,
      ⟨fun hq => absurd hq d24, fun hc => by linarith⟩⟩
  · exact ⟨⟨fun hq => absurd hq (Ne.symm d13), fun hc => absurd hc h1⟩,
      ⟨fun hq => absurd hq (Ne.symm d23), fun hc => absurd hc.2 h2⟩,
      ⟨fun _ => ⟨not_le.mp h2, h3⟩, fun _ => rfl⟩,
      ⟨fun hq => absurd hq d34, fun hc => absurd h3 (not_le.mpr hc)⟩⟩
  · exact ⟨⟨fun hq => absurd hq (Ne.symm d14), fun hc => absurd hc h1⟩,
      ⟨fun hq => absurd hq (Ne.symm d24), fun hc => absurd hc.2 h2⟩,
      ⟨fun hq => absurd hq (Ne.symm d34), fun hc => absurd hc.2 h3⟩,
      ⟨fun _ => not_le.mp h3, fun _ => rfl⟩⟩

theorem reaim_level_iff (s : ℚ) :
    (get_reaim_readiness_level (.num s) = "High Readiness" ↔ 8 ≤ s) ∧
    (get_reaim_readiness_level (.num s) = "Moderate Readiness" ↔ 6 ≤ s ∧ s < 8) ∧
    (get_reaim_readiness_level (.num s) = "Low Readiness" ↔ 4 ≤ s ∧ s < 6) ∧
    (get_reaim_readiness_level (.num s) = "Not Ready" ↔ s < 4) := by
  have d12 : ("High Readiness" : String) ≠ "Moderate Readiness" := by decide
  have d13 : ("High Readiness" : String) ≠ "Low Readiness" := by decide
  have d14 : ("High Readiness" : String) ≠ "Not Ready" := by decide
  have d23 : ("Moderate Readiness" : String) ≠ "Low Readiness" := by decide
  have d24 : ("Moderate Readiness" : String) ≠ "Not Ready" := by decide
  have d34 : ("Low Readiness" : String) ≠ "Not Ready" := by decide
  unfold get_reaim_readiness_level
  simp only [PFloat.bge, decide_eq_true_eq]
  split_ifs with h1 h2 h3
  · exact ⟨⟨fun _ => h1, fun _ => rfl⟩,
      ⟨fun hq => absurd hq d12, fun hc => absurd h1 (not_le.mpr hc.2)⟩,
      ⟨fun hq => absurd hq d13, fun hc => by linarith [hc.2]⟩,
      ⟨fun hq => absurd hq d14, fun hc => by linarith⟩⟩
  · exact ⟨⟨fun hq => absurd hq (Ne.symm d12), fun hc => absurd hc h1⟩,
      ⟨fun _ => ⟨h2, not_le.mp h1⟩, fun _ => rfl⟩,
      ⟨fun hq => absurd hq d23, fun hc => absurd h2 (not_le.mpr hc.2)⟩,
      ⟨fun hq => absurd hq d24, fun hc => by linarith⟩⟩
  · exact ⟨⟨fun hq => absurd hq (Ne.symm d13), fun hc => absurd hc h1⟩,
      ⟨fun hq => absurd hq (Ne.symm d23), fun hc => absurd hc.1 h2⟩,
      ⟨fun _ => ⟨h3, not_le.mp h2⟩, fun _ => rfl⟩,
      ⟨fun hq => absurd hq d34, fun hc => absurd h3 (not_le.mpr hc)⟩⟩
  · exact ⟨⟨fun hq => absurd hq (Ne.symm d14), fun hc => absurd hc h1⟩,
      ⟨fun hq => absurd hq (Ne.symm d24), fun hc => absurd hc.1 h2⟩,
      ⟨fun hq => absurd hq (Ne.symm d34), fun hc => absurd hc.1 h3⟩,
      ⟨fun _ => not_le.mp h3, fun _ => rfl⟩⟩

/-- C6: threshold characterization of both label functions (first match wins,
thresholds inclusive), with the eight boundary examples of the spec. -/
theorem level_thresholds_spec :
    (∀ s : ℚ,
      (get_nasss_complexity_level (.num s) = "Simple" ↔ s ≤ 2) ∧
      (get_nasss_complexity_level (.num s) = "Complicated" ↔ 2 < s ∧ s ≤ 3) ∧
      (get_nasss_complexity_level (.num s) = "Complex" ↔ 3 < s ∧ s ≤ 4) ∧
      (get_nasss_complexity_level (.num s) = "Chaotic" ↔ 4 < s) ∧
      (get_reaim_readiness_level (.num s) = "High Readiness" ↔ 8 ≤ s) ∧
      (get_reaim_readiness_level (.num s) = "Moderate Readiness" ↔ 6 ≤ s ∧ s < 8) ∧
      (get_reaim_readiness_level (.num s) = "Low Readiness" ↔ 4 ≤ s ∧ s < 6) ∧
      (get_reaim_readiness_level (.num s) = "Not Ready" ↔ s < 4)) ∧
    get_nasss_complexity_level (.num 2) = "Simple" ∧
    get_nasss_complexity_level (.num (201/100)) = "Complicated" ∧
    get_nasss_complexity_level (.num 4) = "Complex" ∧
    get_nasss_complexity_level (.num (401/100)) = "Chaotic" ∧
    get_reaim_readiness_level (.num 8) = "High Readiness" ∧
    get_reaim_readiness_level (.num (799/100)) = "Moderate Readiness" ∧
    get_reaim_readiness_level (.num 4) = "Low Readiness" ∧
    get_reaim_readiness_level (.num (399/100)) = "Not Ready" := by
  refine ⟨?_, ?_, ?_, ?_, ?_, ?_, ?_, ?_, ?_⟩
  · intro s
    obtain ⟨n1, n2, n3, n4⟩ := nasss_level_iff s
    obtain ⟨r1, r2, r3, r4⟩ := reaim_level_iff s
    exact ⟨n1, n2, n3, n4, r1, r2, r3, r4⟩
  all_goals norm_num [get_nasss_complexity_level, get_reaim_readiness_level,
    PFloat.ble, PFloat.bge]

/-- C6 witness: applying the characterization at concrete scores. -/
theorem level_thresholds_spec_witness :
    get_nasss_complexity_level (.num (5/2)) = "Complicated" ∧
    get_reaim_readiness_level (.num (13/2)) = "Moderate Readiness" := by
  constructor
  · exact ((level_thresholds_spec.1 (5/2)).2.1).mpr (by norm_num)
  · exact ((level_thresholds_spec.1 (13/2)).2.2.2.2.2.1).mpr (by norm_num)

theorem npMean_ne_nil (l : List ℚ) (h : l ≠ []) :
    npMean l = .num (l.sum / (l.length : ℚ)) := by
  unfold npMean
  simp [h]

theorem npMean_nil : npMean [] = .nan := rfl

/-- C4: for both framework scorers, the overall entry's score is the
unweighted arithmetic mean of exactly the present vocabulary entries' scores
(whenever at least one is present); each vocabulary name's per-entry output
is the image of its own lookup only (absent names are omitted, never zero);
hence adding an entry under a different key never changes the per-entry
output of a present name. -/
theorem framework_overall_mean_spec :
    (∀ a : List (String × ℚ), presentOf nasss_domains a ≠ [] →
      List.lookup ("overall") (calculate_nasss_scores a) =
        some { score := .num (presentMean nasss_domains a),
               level := get_nasss_complexity_level
                 (.num (presentMean nasss_domains a)) }) ∧
    (∀ (a : List (String × ℚ)) (k : String), k ∈ nasss_domains →
      List.lookup k (calculate_nasss_scores a) =
        (List.lookup k a).map (fun v =>
          ({ score := .num v,
             level := get_nasss_complexity_level (.num v) } : FrameworkEntry))) ∧
    (∀ (a : List (String × ℚ)) (d : String) (v : ℚ) (k : String),
      k ∈ nasss_domains → k ≠ d →
      List.lookup k (calculate_nasss_scores ((d, v) :: a)) =
        List.lookup k (calculate_nasss_scores a)) ∧
    (∀ a : List (String × ℚ), presentOf reaim_dimensions a ≠ [] →
      List.lookup ("overall") (calculate_reaim_scores a) =
        some { score := .num (presentMean reaim_dimensions a),
               level := get_reaim_readiness_level
                 (.num (presentMean reaim_dimensions a)) }) ∧
    (∀ (a : List (String × ℚ)) (k : String), k ∈ reaim_dimensions →
      List.lookup k (calculate_reaim_scores a) =
        (List.lookup k a).map (fun v =>
          ({ score := .num v,
             level := get_reaim_readiness_level (.num v) } : FrameworkEntry))) ∧
    (∀ (a : List (String × ℚ)) (d : String) (v : ℚ) (k : String),
      k ∈ reaim_dimensions → k ≠ d →
      List.lookup k (calculate_reaim_scores ((d, v) :: a)) =
        List.lookup k (calculate_reaim_scores a)) := by
  refine ⟨?_, ?_, ?_, ?_, ?_, ?_⟩
  · intro a hne
    have hmap : (presentOf nasss_domains a).map Prod.snd ≠ [] :=
      fun hh => hne (List.map_eq_nil_iff.mp hh)
    simp only [calculate_nasss_scores]
    rw [lookup_frameworkScores_overall _ _ _ (by decide), npMean_ne_nil _ hmap]
    rfl
  · intro a k hk
    have hko : k ≠ "overall" := fun hh => absurd (hh ▸ hk) (by decide)
    simp only [calculate_nasss_scores]
    exact lookup_frameworkScores_domain _ _ _ _ (by decide) hk hko
  · intro a d v k hk hkd
    have hko : k ≠ "overall" := fun hh => absurd (hh ▸ hk) (by decide)
    simp only [calculate_nasss_scores]
    rw [lookup_frameworkScores_domain _ _ _ _ (by decide) hk hko,
        lookup_frameworkScores_domain _ _ _ _ (by decide) hk hko,
        lookup_cons_ne k d v a hkd]
  · intro a hne
    have hmap : (presentOf reaim_dimensions a).map Prod.snd ≠ [] :=
      fun hh => hne (List.map_eq_nil_iff.mp hh)
    simp only [calculate_reaim_scores]
    rw [lookup_frameworkScores_overall _ _ _ (by decide), npMean_ne_nil _ hmap]
    rfl
  · intro a k hk
    have hko : k ≠ "overall" := fun hh => absurd (hh ▸ hk) (by decide)
    simp only [calculate_reaim_scores]
    exact lookup_frameworkScores_domain _ _ _ _ (by decide) hk hko
  · intro a d v k hk hkd
    have hko : k ≠ "overall" := fun hh => absurd (hh ▸ hk) (by decide)
    simp only [calculate_reaim_scores]
    rw [lookup_frameworkScores_domain _ _ _ _ (by decide) hk hko,
        lookup_frameworkScores_domain _ _ _ _ (by decide) hk hko,
        lookup_cons_ne k d v a hkd]

/-- C4 witness: the overall entry for a two-domain NASSS input is the mean
5/2 of the two present scores, a per-entry lookup for RE-AIM, and adding an
entry under another key leaves a present entry unchanged. -/
theorem framework_overall_mean_spec_witness :
    presentOf nasss_domains [("technology", 2), ("adopters", 3)] ≠ [] ∧
    List.lookup ("overall")
        (calculate_nasss_scores [("technology", 2), ("adopters", 3)]) =
      some { score := .num (5/2), level := "Complicated" } ∧
    List.lookup ("reach") (calculate_reaim_scores [("reach", 7)]) =
      some { score := .num 7, level := "Moderate Readiness" } ∧
    List.lookup ("reach")
        (calculate_reaim_scores [("adoption", 5), ("reach", 7)]) =
      List.lookup ("reach") (calculate_reaim_scores [("reach", 7)]) := by
  have hp : presentOf nasss_domains [("technology", 2), ("adopters", 3)] =
      [("technology", 2), ("adopters", 3)] := by decide
  have hm : presentMean nasss_domains [("technology", 2), ("adopters", 3)] = 5/2 := by
    simp only [presentMean, hp]
    norm_num
  have hl : get_nasss_complexity_level (.num (5/2)) = "Complicated" :=
    (nasss_level_iff (5/2)).2.1.mpr (by norm_num)
  have hl7 : get_reaim_readiness_level (.num 7) = "Moderate Readiness" :=
    (reaim_level_iff 7).2.1.mpr (by norm_num)
  refine ⟨by decide, ?_, ?_, ?_⟩
  · rw [framework_overall_mean_spec.1 [("technology", 2), ("adopters", 3)] (by decide),
      hm, hl]
  · rw [framework_overall_mean_spec.2.2.2.2.1 [("reach", 7)] ("reach") (by decide),
      show List.lookup ("reach") [(("reach" : String), (7 : ℚ))] = some 7 from by decide]
    simp [hl7]
  · exact framework_overall_mean_spec.2.2.2.2.2 [("reach", 7)] ("adoption") 5
      ("reach") (by decide) (by decide)

/-- C10: both scorers' output always contains an overall entry, whatever the
input; when no vocabulary name is present the overall score is NaN (np.mean
of an empty list) rather than an error or an omission, and the NaN falls
through every threshold comparison to the last label. -/
theorem framework_overall_always_present :
    (∀ a : List (String × ℚ),
      (List.lookup ("overall") (calculate_nasss_scores a)).isSome = true ∧
      (List.lookup ("overall") (calculate_reaim_scores a)).isSome = true) ∧
    (∀ a : List (String × ℚ), presentOf nasss_domains a = [] →
      calculate_nasss_scores a =
        [("overall", { score := .nan, level := "Chaotic" })]) ∧
    (∀ a : List (String × ℚ), presentOf reaim_dimensions a = [] →
      calculate_reaim_scores a =
        [("overall", { score := .nan, level := "Not Ready" })]) ∧
    calculate_nasss_scores [] =
      [("overall", { score := .nan, level := "Chaotic" })] ∧
    calculate_reaim_scores [] =
      [("overall", { score := .nan, level := "Not Ready" })] := by
  refine ⟨?_, ?_, ?_, ?_, ?_⟩
  · intro a
    constructor
    · simp only [calculate_nasss_scores]
      rw [lookup_frameworkScores_overall _ _ _ (by decide)]
      rfl
    · simp only [calculate_reaim_scores]
      rw [lookup_frameworkScores_overall _ _ _ (by decide)]
      rfl
  · intro a h
    simp only [calculate_nasss_scores, frameworkScores, h]
    rfl
  · intro a h
    simp only [calculate_reaim_scores, frameworkScores, h]
    rfl
  · rfl
  · rfl

/-- C10 witness: an assessment with only an unknown key still yields exactly
the NaN overall entry. -/
theorem framework_overall_always_present_witness :
    calculate_nasss_scores [("foo", 1)] =
      [("overall", { score := .nan, level := "Chaotic" })] :=
  framework_overall_always_present.2.1 [("foo", 1)] (by decide)

/-- C5: for a non-zero target the per-metric comparison returns
meets_target = actual >= target for higher-is-better metrics and
actual <= target otherwise, with variance_percent = (actual-target)/target*100;
a zero target fails (ZeroDivisionError); and the spec's end-to-end example
on pwa_score/performance_score yields meets_target = false with variances
-50/9 (about -5.56) and -5/2. -/
theorem analyze_metric_spec :
    (∀ (metric : String) (actual target : ℚ), target ≠ 0 →
      analyze_metric metric actual target =
        some { actual := actual, target := target,
               meets_target := if metric ∈ higher_is_better_metrics
                 then decide (target ≤ actual) else decide (actual ≤ target),
               variance_percent := (actual - target) / target * 100 }) ∧
    (∀ (metric : String) (actual : ℚ), analyze_metric metric actual 0 = none) ∧
    analyze_performance_metrics [("pwa_score", 85), ("performance_score", 78)] =
      some [("pwa_score",
              { actual := 85, target := 90, meets_target := false,
                variance_percent := -50/9 }),
            ("performance_score",
              { actual := 78, target := 80, meets_target := false,
                variance_percent := -5/2 })] := by
  refine ⟨?_, ?_, ?_⟩
  · intro metric actual target h
    simp [analyze_metric, h]
  · intro metric actual
    simp [analyze_metric]
  · have h1 : performance_targets.filterMap
        (fun p => (List.lookup p.1 [("pwa_score", (85 : ℚ)),
            ("performance_score", 78)]).map (fun a => (p.1, a, p.2))) =
        [("pwa_score", 85, 90), ("performance_score", 78, 80)] := by decide
    have e1 : analyze_metric ("pwa_score") 85 90 =
        some { actual := 85, target := 90, meets_target := false,
               variance_percent := -50/9 } := by
      norm_num [analyze_metric, higher_is_better_metrics]
    have e2 : analyze_metric ("performance_score") 78 80 =
        some { actual := 78, target := 80, meets_target := false,
               variance_percent := -5/2 } := by
      norm_num [analyze_metric, higher_is_better_metrics]
    simp only [analyze_performance_metrics, h1, List.mapM_cons, List.mapM_nil, e1, e2]
    rfl

/-- C5 witness: the general part applied at the pwa_score example. -/
theorem analyze_metric_spec_witness :
    (90 : ℚ) ≠ 0 ∧
    analyze_metric ("pwa_score") 85 90 =
      some { actual := 85, target := 90,
             meets_target := if ("pwa_score" : String) ∈ higher_is_better_metrics
               then decide ((90 : ℚ) ≤ 85) else decide ((85 : ℚ) ≤ 90),
             variance_percent := ((85 : ℚ) - 90) / 90 * 100 } ∧
    analyze_metric ("pwa_score") 85 0 = none := by
  refine ⟨by norm_num, ?_, analyze_metric_spec.2.1 ("pwa_score") 85⟩
  exact analyze_metric_spec.1 ("pwa_score") 85 90 (by norm_num)

/-- C9: the report builder divides targets met by the number of recognized
metrics; when no input key is a recognized metric (in particular on the
empty mapping) the computation fails with a ZeroDivisionError instead of
returning a report. -/
theorem generate_performance_report_spec :
    generate_performance_report [] = none ∧
    (∀ metrics_data : List (String × ℚ),
      (∀ p ∈ performance_targets, List.lookup p.1 metrics_data = none) →
      generate_performance_report metrics_data = none) ∧
    (∀ (metrics_data : List (String × ℚ)) (report : PerformanceReport),
      generate_performance_report metrics_data = some report →
      report.summary.total_metrics ≠ 0 ∧
      report.summary.total_metrics = report.metrics_analysis.length ∧
      report.summary.targets_met =
        report.metrics_analysis.countP (fun m => m.2.meets_target) ∧
      report.summary.overall_score =
        ((report.summary.targets_met : ℚ) /
          (report.summary.total_metrics : ℚ)) * 100) := by
  refine ⟨rfl, ?_, ?_⟩
  · intro md h
    have hf : performance_targets.filterMap
        (fun p => (md.lookup p.1).map (fun a => (p.1, a, p.2))) = [] := by
      rw [List.filterMap_eq_nil_iff]
      intro p hp
      rw [h p hp]
      rfl
    simp [generate_performance_report, analyze_performance_metrics, hf, List.mapM.loop]
  · intro md r h
    unfold generate_performance_report at h
    cases han : analyze_performance_metrics md with
    | none =>
      rw [han] at h
      cases h
    | some analysis =>
      rw [han] at h
      simp only [Option.bind] at h
      by_cases hlen : analysis.length = 0
      · rw [if_pos hlen] at h
        cases h
      · rw [if_neg hlen] at h
        have hr := (Option.some.injEq _ _).mp h
        subst hr
        exact ⟨hlen, rfl, rfl, rfl⟩

/-- C9 witness: a mapping with only unrecognized keys fails, and the general
summary facts hold at the spec's example input. -/
theorem generate_performance_report_spec_witness :
    generate_performance_report [("foo", 1)] = none := by
  apply generate_performance_report_spec.2.1
  decide

/-- C7: analyze_expert_responses on an empty response sequence never fails
and returns the canonical placeholder summary: zero experts, empty
expert-type table, zero mean years of experience, zero resource-limited
percentage, and a usability block with mean 0, standard deviation 0 and
grade N/A — whatever the optional SUS column is. -/
theorem analyze_expert_responses_empty_spec :
    ∀ sus_col : Option (List ℚ),
      analyze_expert_responses [] sus_col =
        { response_summary := {
            total_experts := 0,
            expert_types := [],
            avg_years_experience := .num 0,
            resource_limited_experience_pct := 0,
            note := some ("No expert evaluation data collected yet") },
          sus_analysis := {
            mean_sus := .num 0,
            std_sus := .num 0,
            sus_grade := "N/A",
            above_average := 0,
            note := some ("Expert evaluation pending") } } :=
  fun _ => rfl

/-- Whether one comment contributes a mention to a theme with the given
keywords: it must be present, non-empty (Python truthiness) and contain
one of the keywords. -/
def commentMatches (keywords : List String) (c : Option String) : Bool :=
  match c with
  | none => false
  | some s => if s = "" then false else (firstKeywordHit keywords s).isSome

theorem themeStep_foldl_fst (keywords : List String) :
    ∀ (comments : List (Option String)) (n : ℕ) (ex : List String),
      (comments.foldl (themeStep keywords) (n, ex)).1 =
        n + comments.countP (commentMatches keywords) := by
  intro comments
  induction comments with
  | nil =>
    intro n ex
    simp
  | cons c t ih =>
    intro n ex
    rw [List.foldl_cons, List.countP_cons]
    cases c with
    | none =>
      rw [ih]
      simp [themeStep, commentMatches]
    | some s =>
      by_cases hs : s = ""
      · rw [show themeStep keywords (n, ex) (some s) = (n, ex) from by
          simp [themeStep, hs], ih]
        simp [commentMatches, hs]
      · cases hhit : firstKeywordHit keywords s with
        | none =>
          rw [show themeStep keywords (n, ex) (some s) = (n, ex) from by
            simp [themeStep, hs, hhit], ih]
          simp [commentMatches, hs, hhit]
        | some k =>
          rw [show themeStep keywords (n, ex) (some s) =
              (n + 1, if ex.length < 3 then ex ++ [truncateExample s] else ex) from by
            simp [themeStep, hs, hhit], ih]
          simp only [commentMatches, hs, hhit]
          simp
          omega

/-- C8: a theme's mention count is exactly the number of comments containing
at least one of its keywords — each comment contributes at most one mention
per theme (the first matching keyword short-circuits) though it may hit
several distinct themes — so mentions never exceeds the number of comments;
and the spec's example comment tags usability and technical_issues with one
mention each. -/
theorem thematic_mentions_spec :
    (∀ (keywords : List String) (comments : List (Option String)),
      (analyzeTheme keywords comments).mentions =
        comments.countP (commentMatches keywords)) ∧
    (∀ (keywords : List String) (comments : List (Option String)),
      (analyzeTheme keywords comments).mentions ≤ comments.length) ∧
    perform_thematic_analysis
        [some ("The interface is intuitive but the app is slow")] =
      [("usability",
         { mentions := 1,
           examples := ["The interface is intuitive but the app is slow..."] }),
       ("clinical_safety", { mentions := 0, examples := [] }),
       ("technical_issues",
         { mentions := 1,
           examples := ["The interface is intuitive but the app is slow..."] }),
       ("deployment_concerns", { mentions := 0, examples := [] }),
       ("positive_feedback", { mentions := 0, examples := [] }),
       ("negative_feedback", { mentions := 0, examples := [] })] := by
  have hmain : ∀ (keywords : List String) (comments : List (Option String)),
      (analyzeTheme keywords comments).mentions =
        comments.countP (commentMatches keywords) := by
    intro keywords comments
    unfold analyzeTheme
    simpa using themeStep_foldl_fst keywords comments 0 []
  refine ⟨hmain, ?_, ?_⟩
  · intro keywords comments
    rw [hmain]
    exact List.countP_le_length _
  · decide

/-- C7 witness: the placeholder at the concrete no-SUS-column empty frame. -/
theorem analyze_expert_responses_empty_spec_witness :
    (analyze_expert_responses [] none).response_summary.total_experts = 0 ∧
    (analyze_expert_responses [] none).sus_analysis.sus_grade = "N/A" := by
  rw [analyze_expert_responses_empty_spec none]
  exact ⟨rfl, rfl⟩

/-- C8 witness: the mention-count characterization applied to the example
comment and the usability keywords. -/
theorem thematic_mentions_spec_witness :
    (analyzeTheme ["easy", "intuitive", "user-friendly", "simple", "complex",
        "difficult"]
      [some ("The interface is intuitive but the app is slow")]).mentions = 1 := by
  rw [thematic_mentions_spec.1]
  decide
